import Mathlib

/-!
Shallow embedding of `src/src/models/sensor_host.py` (the `SensorHost`
Viam component).

Two layers are modelled:

* The snapshot publishing path (`_update_sensor_reading`,
  `_update_all_sensor_readings`) as a producer of filesystem-operation
  traces (`FsOp`), applied to an association-list filesystem.
* The lifecycle methods (`reconfigure`, `_stop_server`, `_start_server`,
  `_setup_temp_directory`, `_start_refresh_task`, `do_command`,
  `_refresh_readings_loop`, `validate_config`) as an explicit state
  machine on `Sys`, emitting an `Event` trace.

Python leading underscores are dropped from method names, so
`stop_server` below is the Python `_stop_server`, and so on.
Protobuf `number_value` fields (doubles holding small exact values in
every configuration of interest) are embedded as `ℚ`.
-/

/-- A sensor reading mapping, keys to (already stringified) values.
`json.dump(readings, f, default=str)` treats the values opaquely, so the
embedding does too. -/
abbrev Readings := List (String × String)

/-- A filesystem path, as its list of components. -/
abbrev FPath := List String

/-- The filesystem operations issued by `_update_sensor_reading`: a plain
file write (`open(p, 'w')` followed by writing `content`) and
`os.replace(src, dst)`, the atomic rename. -/
inductive FsOp where
  | writeFile (path : FPath) (content : String)
  | replace (src dst : FPath)
deriving DecidableEq

/-- `os.path.join(self.temp_dir, sensor.name, "next.json")`. -/
def nextPath (tempDir name : String) : FPath := [tempDir, name, "next.json"]

/-- `os.path.join(self.temp_dir, sensor.name, "current.json")`. -/
def currentPath (tempDir name : String) : FPath := [tempDir, name, "current.json"]

/-- A filesystem: an association list from paths to file contents. -/
abbrev FS := List (FPath × String)

/-- Look up the content stored at path `p`. -/
def fsFind : FS → FPath → Option String
  | [], _ => none
  | e :: t, p => if e.1 = p then some e.2 else fsFind t p

/-- Remove any entry at path `p`. -/
def fsErase (fs : FS) (p : FPath) : FS :=
  fs.filter (fun e => decide (e.1 ≠ p))

/-- Store content `c` at path `p`, replacing any previous entry. -/
def fsSet (fs : FS) (p : FPath) (c : String) : FS :=
  (p, c) :: fsErase fs p

/-- Apply one filesystem operation.  `os.replace` on a missing source
would raise; in the traces produced below the source always exists, so
that case is modelled as a no-op. -/
def applyOp (fs : FS) : FsOp → FS
  | .writeFile p c => fsSet fs p c
  | .replace src dst =>
    match fsFind fs src with
    | some c => fsSet (fsErase fs src) dst c
    | none => fs

/-- Apply a trace of filesystem operations in order. -/
def applyOps (fs : FS) (ops : List FsOp) : FS :=
  ops.foldl applyOp fs

/-- Does the operation read or write path `p`? -/
def FsOp.touches (op : FsOp) (p : FPath) : Bool :=
  match op with
  | .writeFile q _ => decide (q = p)
  | .replace src dst => decide (src = p) || decide (dst = p)

/-- The outcomes of the external calls made by one
`_update_sensor_reading` invocation: the result of
`await sensor.get_readings()`, the result of `json.dump` on those
readings (`.ok` is the full serialized text), and — when `json.dump`
raised after `open(temp_file, 'w')` succeeded — the bytes left behind in
the truncated temporary file (`none` models `open` itself failing, in
which case nothing was written). -/
structure UpdateEnv where
  fetch : Except String Readings
  dump : Readings → Except String String
  leftover : Option String

/-- `_update_sensor_reading` (sensor_host.py lines 251-269): fetch the
readings, write them to `next.json` in the sensor subdirectory, then
`os.replace` the temporary file onto `current.json`.  Returns the trace
of filesystem operations performed and the exception re-raised, if any.
-/
def update_sensor_reading (env : UpdateEnv) (tempDir name : String) :
    List FsOp × Option String :=
  match env.fetch with
  | .error e => ([], some e)
  | .ok readings =>
    match env.dump readings with
    | .error e =>
      (match env.leftover with
       | some b => [.writeFile (nextPath tempDir name) b]
       | none => []
      , some e)
    | .ok content =>
      ([.writeFile (nextPath tempDir name) content,
        .replace (nextPath tempDir name) (currentPath tempDir name)], none)

/-- One configured sensor together with the outcomes of its external
calls during a single poll pass. -/
structure SensorRun where
  name : String
  env : UpdateEnv

/-- `_update_all_sensor_readings` (lines 243-249): update every sensor in
order; each per-sensor exception is caught (`except Exception`), logged,
and the loop continues.  Returns the combined filesystem trace and the
list of logged error messages; the function itself never raises, which
the total return type records. -/
def update_all_sensor_readings (tempDir : String) :
    List SensorRun → List FsOp × List String
  | [] => ([], [])
  | s :: rest =>
    let r := update_sensor_reading s.env tempDir s.name
    let rr := update_all_sensor_readings tempDir rest
    (r.1 ++ rr.1,
     (match r.2 with | some e => [e] | none => []) ++ rr.2)

theorem fsFind_fsErase_ne (fs : FS) (p q : FPath) (h : p ≠ q) :
    fsFind (fsErase fs q) p = fsFind fs p := by
  induction fs with
  | nil => rfl
  | cons e t ih =>
    by_cases he : e.1 = q
    · have hep : e.1 ≠ p := fun hp => h (hp ▸ he)
      rw [show fsErase (e :: t) q = fsErase t q from by simp [fsErase, List.filter, he]]
      rw [ih]
      simp [fsFind, hep]
    · rw [show fsErase (e :: t) q = e :: fsErase t q from by simp [fsErase, List.filter, he]]
      by_cases hep : e.1 = p
      · simp [fsFind, hep]
      · simp [fsFind, hep, ih]

theorem fsFind_fsSet_self (fs : FS) (p : FPath) (c : String) :
    fsFind (fsSet fs p c) p = some c := by
  simp [fsSet, fsFind]

theorem fsFind_fsSet_ne (fs : FS) (p q : FPath) (c : String) (h : p ≠ q) :
    fsFind (fsSet fs q c) p = fsFind fs p := by
  simp only [fsSet, fsFind]
  rw [if_neg (by intro hq; exact h hq.symm)]
  exact fsFind_fsErase_ne fs p q h

theorem applyOp_find_untouched (fs : FS) (op : FsOp) (p : FPath)
    (h : op.touches p = false) : fsFind (applyOp fs op) p = fsFind fs p := by
  cases op with
  | writeFile q c =>
    simp only [FsOp.touches, decide_eq_false_iff_not] at h
    exact fsFind_fsSet_ne fs p q c (fun hp => h (hp ▸ rfl))
  | replace src dst =>
    simp only [FsOp.touches, Bool.or_eq_false_iff, decide_eq_false_iff_not] at h
    simp only [applyOp]
    cases hf : fsFind fs src with
    | none => rfl
    | some c =>
      rw [fsFind_fsSet_ne _ p dst c (fun hp => h.2 hp.symm)]
      exact fsFind_fsErase_ne fs p src (fun hp => h.1 hp.symm)

theorem applyOps_find_untouched (ops : List FsOp) (fs : FS) (p : FPath)
    (h : ∀ op ∈ ops, op.touches p = false) :
    fsFind (applyOps fs ops) p = fsFind fs p := by
  induction ops generalizing fs with
  | nil => rfl
  | cons op rest ih =>
    show fsFind (applyOps (applyOp fs op) rest) p = fsFind fs p
    rw [ih (applyOp fs op) (fun o ho => h o (List.mem_cons_of_mem _ ho))]
    exact applyOp_find_untouched fs op p (h op (List.mem_cons_self _ _))

theorem fsFind_fsErase_self (fs : FS) (p : FPath) : fsFind (fsErase fs p) p = none := by
  induction fs with
  | nil => rfl
  | cons e t ih =>
    by_cases he : e.1 = p
    · rw [show fsErase (e :: t) p = fsErase t p from by simp [fsErase, List.filter, he]]
      exact ih
    · rw [show fsErase (e :: t) p = e :: fsErase t p from by simp [fsErase, List.filter, he]]
      simp [fsFind, he, ih]

theorem nextPath_ne_currentPath (td m n : String) :
    nextPath td m ≠ currentPath td n := by
  intro h
  simp only [nextPath, currentPath, List.cons.injEq] at h
  exact absurd h.2.2.1 (by decide)

theorem currentPath_inj (td m n : String) (h : currentPath td m = currentPath td n) :
    m = n := by
  simp only [currentPath, List.cons.injEq] at h
  exact h.2.1

/-- Every operation in an `update_sensor_reading` trace touches only that
per-sensor `next.json` or `current.json`. -/
theorem update_ops_local (env : UpdateEnv) (td n : String) (op : FsOp) (p : FPath)
    (hop : op ∈ (update_sensor_reading env td n).1) (h : op.touches p = true) :
    p = nextPath td n ∨ p = currentPath td n := by
  obtain ⟨f, d, l⟩ := env
  cases f with
  | error e => simp [update_sensor_reading] at hop
  | ok r =>
    cases hd : d r with
    | error e =>
      cases l with
      | some b =>
        simp [update_sensor_reading, hd] at hop
        subst hop
        simp only [FsOp.touches, decide_eq_true_eq] at h
        exact Or.inl h.symm
      | none => simp [update_sensor_reading, hd] at hop
    | ok c =>
      simp [update_sensor_reading, hd] at hop
      rcases hop with hop | hop
      · subst hop
        simp only [FsOp.touches, decide_eq_true_eq] at h
        exact Or.inl h.symm
      · subst hop
        simp only [FsOp.touches, Bool.or_eq_true, decide_eq_true_eq] at h
        rcases h with h | h
        · exact Or.inl h.symm
        · exact Or.inr h.symm

/-- Operations performed for a sensor named `m` never touch the canonical
file of a differently named sensor `n`. -/
theorem update_ops_other_name (env : UpdateEnv) (td m n : String) (hmn : m ≠ n)
    (op : FsOp) (hop : op ∈ (update_sensor_reading env td m).1) :
    op.touches (currentPath td n) = false := by
  by_contra hb
  have ht : op.touches (currentPath td n) = true := by
    revert hb; cases op.touches (currentPath td n) <;> simp
  rcases update_ops_local env td m op _ hop ht with h | h
  · exact nextPath_ne_currentPath td m n h.symm
  · exact hmn (currentPath_inj td m n h.symm)

/-- Every plain file write in an `update_sensor_reading` trace targets
the `next.json` of that sensor. -/
theorem update_writes_next (env : UpdateEnv) (td n : String) (p : FPath) (c2 : String)
    (hop : FsOp.writeFile p c2 ∈ (update_sensor_reading env td n).1) :
    p = nextPath td n := by
  obtain ⟨f, d, l⟩ := env
  cases f with
  | error e => simp [update_sensor_reading] at hop
  | ok r =>
    cases hd : d r with
    | error e =>
      cases l with
      | some b =>
        simp [update_sensor_reading, hd] at hop
        exact hop.1
      | none => simp [update_sensor_reading, hd] at hop
    | ok c =>
      simp [update_sensor_reading, hd] at hop
      exact hop.1

/-- The trace produced on the success path: write `next.json`, then
atomically rename it onto `current.json`. -/
theorem update_ok_trace (env : UpdateEnv) (td n : String) (r : Readings) (c : String)
    (hf : env.fetch = .ok r) (hd : env.dump r = .ok c) :
    update_sensor_reading env td n =
      ([.writeFile (nextPath td n) c,
        .replace (nextPath td n) (currentPath td n)], none) := by
  simp [update_sensor_reading, hf, hd]

/-- Effect of the success trace on any filesystem. -/
theorem apply_ok_trace (fs : FS) (td n : String) (c : String) :
    applyOps fs [.writeFile (nextPath td n) c,
                 .replace (nextPath td n) (currentPath td n)]
      = fsSet (fsErase (fsSet fs (nextPath td n) c) (nextPath td n))
          (currentPath td n) c := by
  show applyOp (fsSet fs (nextPath td n) c)
      (FsOp.replace (nextPath td n) (currentPath td n))
    = fsSet (fsErase (fsSet fs (nextPath td n) c) (nextPath td n))
        (currentPath td n) c
  simp [applyOp, fsFind_fsSet_self]

/-- On a raised exception the trace is empty (fetch failed, or `open`
failed) or a single write to `next.json` (serialization failed midway). -/
theorem update_error_trace (env : UpdateEnv) (td n : String) (e : String)
    (herr : (update_sensor_reading env td n).2 = some e) :
    (update_sensor_reading env td n).1 = [] ∨
    ∃ b, (update_sensor_reading env td n).1 = [.writeFile (nextPath td n) b] := by
  obtain ⟨f, d, l⟩ := env
  cases f with
  | error e2 => exact Or.inl rfl
  | ok r =>
    cases hd : d r with
    | error e2 =>
      cases l with
      | some b =>
        refine Or.inr ⟨b, ?_⟩
        simp [update_sensor_reading, hd]
      | none =>
        refine Or.inl ?_
        simp [update_sensor_reading, hd]
    | ok c =>
      simp [update_sensor_reading, hd] at herr

theorem update_all_append (td : String) (l1 l2 : List SensorRun) :
    update_all_sensor_readings td (l1 ++ l2) =
      ((update_all_sensor_readings td l1).1 ++ (update_all_sensor_readings td l2).1,
       (update_all_sensor_readings td l1).2 ++ (update_all_sensor_readings td l2).2) := by
  induction l1 with
  | nil => simp [update_all_sensor_readings]
  | cons s t ih => simp [update_all_sensor_readings, ih]

theorem applyOps_append (fs : FS) (a b : List FsOp) :
    applyOps fs (a ++ b) = applyOps (applyOps fs a) b :=
  List.foldl_append _ _ _ _

/-- A whole poll pass over sensors all named differently from `n` never
touches the canonical file of sensor `n`. -/
theorem update_all_ops_other (td n : String) (l : List SensorRun)
    (hl : ∀ x ∈ l, x.name ≠ n) (op : FsOp)
    (hop : op ∈ (update_all_sensor_readings td l).1) :
    op.touches (currentPath td n) = false := by
  induction l with
  | nil => simp [update_all_sensor_readings] at hop
  | cons x t ih =>
    have hx : op ∈ (update_sensor_reading x.env td x.name).1 ++
        (update_all_sensor_readings td t).1 := hop
    rcases List.mem_append.mp hx with h | h
    · exact update_ops_other_name x.env td x.name n
        (hl x (List.mem_cons_self _ _)) op h
    · exact ih (fun y hy => hl y (List.mem_cons_of_mem _ hy)) h

/-- C1: for every source and readings mapping, publishing a snapshot
serializes the readings to JSON, writes them to the temporary path
`next.json` inside the subdirectory of that source, then atomically renames
that file to `current.json` in the same subdirectory; on any filesystem
this installs the serialized content at `current.json` and removes
`next.json`, and (for every possible execution) the canonical file is
never the target of a plain write, only of the rename. -/
theorem update_sensor_reading_atomic_publish (env : UpdateEnv) (td n : String)
    (r : Readings) (c : String) (hf : env.fetch = .ok r) (hd : env.dump r = .ok c) :
    update_sensor_reading env td n =
      ([.writeFile (nextPath td n) c,
        .replace (nextPath td n) (currentPath td n)], none)
    ∧ (∀ fs : FS,
        fsFind (applyOps fs (update_sensor_reading env td n).1) (currentPath td n)
          = some c
        ∧ fsFind (applyOps fs (update_sensor_reading env td n).1) (nextPath td n)
          = none)
    ∧ (∀ env2 : UpdateEnv, ∀ p c2,
        FsOp.writeFile p c2 ∈ (update_sensor_reading env2 td n).1 →
          p ≠ currentPath td n) := by
  have htr := update_ok_trace env td n r c hf hd
  refine ⟨htr, ?_, ?_⟩
  · intro fs
    have h1 : (update_sensor_reading env td n).1 =
        [FsOp.writeFile (nextPath td n) c,
         FsOp.replace (nextPath td n) (currentPath td n)] :=
      congrArg Prod.fst htr
    rw [h1, apply_ok_trace]
    constructor
    · exact fsFind_fsSet_self _ _ _
    · rw [fsFind_fsSet_ne _ _ _ _ (nextPath_ne_currentPath td n n)]
      exact fsFind_fsErase_self _ _
  · intro env2 p c2 hop hpc
    have h := update_writes_next env2 td n p c2 hop
    exact nextPath_ne_currentPath td n n (h ▸ hpc)

theorem update_sensor_reading_atomic_publish_witness :
    update_sensor_reading
        ⟨.ok [("temperature", "21")], fun _ => .ok "SERIALIZED", none⟩ "root" "s1" =
      ([.writeFile (nextPath "root" "s1") "SERIALIZED",
        .replace (nextPath "root" "s1") (currentPath "root" "s1")], none) :=
  (update_sensor_reading_atomic_publish
    ⟨.ok [("temperature", "21")], fun _ => .ok "SERIALIZED", none⟩
    "root" "s1" [("temperature", "21")] "SERIALIZED" rfl rfl).1

/-- C2: if publishing a snapshot fails (the fetch, the JSON
serialization, or the write of the temporary file raises), the
previously published `current.json` for that source is left untouched:
applying the failure trace to any filesystem preserves the content at
the canonical path. -/
theorem update_failure_preserves_current (env : UpdateEnv) (td n : String)
    (e : String) (herr : (update_sensor_reading env td n).2 = some e) (fs : FS) :
    fsFind (applyOps fs (update_sensor_reading env td n).1) (currentPath td n)
      = fsFind fs (currentPath td n) := by
  rcases update_error_trace env td n e herr with h | ⟨b, h⟩
  · rw [h]; rfl
  · rw [h]
    show fsFind (fsSet fs (nextPath td n) b) (currentPath td n)
      = fsFind fs (currentPath td n)
    exact fsFind_fsSet_ne _ _ _ _ (fun hc => nextPath_ne_currentPath td n n hc.symm)

theorem update_failure_preserves_current_witness :
    fsFind
      (applyOps [(["root", "s1", "current.json"], "OLD")]
        (update_sensor_reading ⟨.error "boom", fun _ => .ok "", none⟩ "root" "s1").1)
      (currentPath "root" "s1")
    = fsFind [(["root", "s1", "current.json"], "OLD")] (currentPath "root" "s1") :=
  update_failure_preserves_current ⟨.error "boom", fun _ => .ok "", none⟩
    "root" "s1" "boom" rfl _

/-- C3: in a poll pass over the configured sources, fetch or publish
failures of other sources are caught (the pass is a total function that
logs them) and a source whose own fetch and serialization succeed is
still published: its `current.json` holds its new snapshot after the
pass, whatever the surrounding sources did. -/
theorem poll_pass_isolates_failures (td : String) (pre post : List SensorRun)
    (s : SensorRun) (r : Readings) (c : String)
    (hpost : ∀ x ∈ post, x.name ≠ s.name)
    (hf : s.env.fetch = .ok r) (hd : s.env.dump r = .ok c) (fs : FS) :
    fsFind (applyOps fs (update_all_sensor_readings td (pre ++ s :: post)).1)
      (currentPath td s.name) = some c := by
  have h1 : (update_all_sensor_readings td (pre ++ s :: post)).1
      = (update_all_sensor_readings td pre).1 ++
        ((update_sensor_reading s.env td s.name).1 ++
          (update_all_sensor_readings td post).1) := by
    rw [update_all_append td pre (s :: post)]
    rfl
  have hts : (update_sensor_reading s.env td s.name).1 =
      [FsOp.writeFile (nextPath td s.name) c,
       FsOp.replace (nextPath td s.name) (currentPath td s.name)] :=
    congrArg Prod.fst (update_ok_trace s.env td s.name r c hf hd)
  rw [h1, hts, applyOps_append, applyOps_append]
  rw [applyOps_find_untouched _ _ _
    (fun op hop => update_all_ops_other td s.name post hpost op hop)]
  rw [apply_ok_trace]
  exact fsFind_fsSet_self _ _ _

theorem poll_pass_isolates_failures_witness :
    fsFind
      (applyOps []
        (update_all_sensor_readings "root"
          [⟨"sensA", ⟨.error "fetch failed", fun _ => .ok "", none⟩⟩,
           ⟨"sensB", ⟨.ok [("k", "v")], fun _ => .ok "NEW", none⟩⟩]).1)
      (currentPath "root" "sensB") = some "NEW" :=
  poll_pass_isolates_failures "root"
    [⟨"sensA", ⟨.error "fetch failed", fun _ => .ok "", none⟩⟩] []
    ⟨"sensB", ⟨.ok [("k", "v")], fun _ => .ok "NEW", none⟩⟩
    [("k", "v")] "NEW"
    (by intro x hx; simp at hx)
    rfl rfl []

/-- An asyncio task handle: its identity and whether `done()` holds. -/
structure TaskRef where
  id : Nat
  done : Bool
deriving DecidableEq

/-- The in-memory fields of the `SensorHost` object (lines 29-38)
together with the external resources the process manages: the set of
existing temp directories (by identity), the bound TCP ports, and the
live (scheduled, uncancelled) asyncio tasks. -/
structure Sys where
  sensors : List String
  port : Int
  refresh_interval : ℚ
  server : Option Int
  server_thread : Option Bool
  refresh_task : Option TaskRef
  temp_dir : Option Nat
  running : Bool
  dirs : List Nat
  boundPorts : List Int
  liveTasks : List Nat
deriving DecidableEq

/-- The state right after `SensorHost.__init__` in a fresh world. -/
def initSys : Sys :=
  { sensors := [], port := 8080, refresh_interval := 5, server := none,
    server_thread := none, refresh_task := none, temp_dir := none,
    running := false, dirs := [], boundPorts := [], liveTasks := [] }

/-- Resource events, emitted in the order the lifecycle code performs
them. -/
inductive Event where
  | cancelTask (t : Nat)
  | stopHttp (p : Int)
  | removeDir (d : Nat)
  | createDir (d : Nat)
  | bindPort (p : Int)
  | spawnTask (t : Nat)
  | sleep (q : ℚ)
  | poll
deriving DecidableEq

/-- `_stop_server` step 1 (lines 202-204): cancel the refresh task if one
exists and is not done; a done task handle is kept in the field. -/
def cancelRefreshTask (s : Sys) : Sys × List Event :=
  match s.refresh_task with
  | some t =>
    if t.done then (s, [])
    else ({ s with refresh_task := none, liveTasks := s.liveTasks.erase t.id },
          [.cancelTask t.id])
  | none => (s, [])

/-- `_stop_server` step 2 (lines 206-209): shut the HTTP server down,
close its socket (releasing the port) and drop the handle. -/
def shutdownHttpServer (s : Sys) : Sys × List Event :=
  match s.server with
  | some p =>
    ({ s with server := none, boundPorts := s.boundPorts.erase p }, [.stopHttp p])
  | none => (s, [])

/-- `_stop_server` step 3 (lines 211-213): join the server thread if it
is alive; a dead thread handle is kept in the field. -/
def joinServerThread (s : Sys) : Sys :=
  match s.server_thread with
  | some true => { s with server_thread := none }
  | _ => s

/-- `_stop_server` step 4 (lines 215-218): remove the temp directory when
the field is set and the directory still exists; `ignore_errors=True`,
so this never raises. -/
def removeTempDir (s : Sys) : Sys × List Event :=
  match s.temp_dir with
  | some d =>
    if d ∈ s.dirs then
      ({ s with temp_dir := none, dirs := s.dirs.erase d }, [.removeDir d])
    else (s, [])
  | none => (s, [])

/-- `_stop_server` (lines 200-221): the four teardown steps in source
order, then `self.running = False`.  Total: no step can raise. -/
def stop_server (s : Sys) : Sys × List Event :=
  let r1 := cancelRefreshTask s
  let r2 := shutdownHttpServer r1.1
  let s3 := joinServerThread r2.1
  let r4 := removeTempDir s3
  ({ r4.1 with running := false }, r1.2 ++ r2.2 ++ r4.2)

/-- `_setup_temp_directory` (lines 170-183): best-effort removal of the
previous temp directory if the field is set, then `mkdtemp` a fresh
directory `newDir` and record it.  The per-sensor subdirectories live
inside `newDir` and are not modelled separately. -/
def setup_temp_directory (newDir : Nat) (s : Sys) : Sys × List Event :=
  let r1 := match s.temp_dir with
            | some d =>
              if d ∈ s.dirs then
                ({ s with dirs := s.dirs.erase d }, [Event.removeDir d])
              else (s, ([] : List Event))
            | none => (s, ([] : List Event))
  ({ r1.1 with temp_dir := some newDir, dirs := newDir :: r1.1.dirs },
   r1.2 ++ [.createDir newDir])

/-- `_start_server` (lines 185-198): early return if a server object
already exists; otherwise bind `0.0.0.0:port` and start the serving
thread.  `bindOk` is the outcome of the `HTTPServer` constructor; on
failure the exception is logged and re-raised, and no field changes. -/
def start_server (bindOk : Bool) (s : Sys) : Sys × List Event × Option String :=
  match s.server with
  | some _ => (s, [], none)
  | none =>
    if bindOk then
      ({ s with server := some s.port, boundPorts := s.port :: s.boundPorts,
                server_thread := some true },
       [.bindPort s.port], none)
    else (s, [], some "Failed to start HTTP server")

/-- `_start_refresh_task` (lines 223-230): cancel a previous live
(not-done) task, then create the new refresh task `newTask`. -/
def start_refresh_task (newTask : Nat) (s : Sys) : Sys × List Event :=
  let r1 := match s.refresh_task with
            | some t =>
              if t.done then (s, ([] : List Event))
              else ({ s with liveTasks := s.liveTasks.erase t.id },
                    [Event.cancelTask t.id])
            | none => (s, ([] : List Event))
  ({ r1.1 with refresh_task := some ⟨newTask, false⟩,
               liveTasks := newTask :: r1.1.liveTasks },
   r1.2 ++ [.spawnTask newTask])

/-- Python `int()` applied to a double: truncation toward zero. -/
def intOfNum (q : ℚ) : Int := q.num.tdiv q.den

/-- The configuration attributes consumed by `reconfigure`: the sensor
name list, the `port` and optional `refresh` numbers, and the sensor
names present in the dependency mapping. -/
structure Config where
  sensorNames : List String
  port : ℚ
  refresh : Option ℚ
  deps : List String
deriving DecidableEq

/-- Refresh-interval selection (lines 110-116): optional with default
5.0, reset to 5.0 when nonpositive. -/
def effInterval (cfg : Config) : ℚ :=
  match cfg.refresh with
  | some r => if r ≤ 0 then 5 else r
  | none => 5

/-- `reconfigure` (lines 94-138): stop the previous generation, extract
the new configuration, resolve sensors from dependencies (a missing
dependency is dropped with a warning), create the new temp directory,
start the server and the refresh task, set `running`.  `newDir` and
`newTask` are the fresh identities produced by `mkdtemp` and
`create_task`; `bindOk` is the `HTTPServer` constructor outcome.
Returns the final state, the event trace, and the propagated exception
if any. -/
def reconfigure (cfg : Config) (newDir newTask : Nat) (bindOk : Bool) (s : Sys) :
    Sys × List Event × Option String :=
  let r1 := stop_server s
  let s2 := { r1.1 with
              port := intOfNum cfg.port,
              refresh_interval := effInterval cfg,
              sensors := cfg.sensorNames.filter (fun n => cfg.deps.contains n) }
  let r3 := setup_temp_directory newDir s2
  let r4 := start_server bindOk r3.1
  match r4.2.2 with
  | some e => (r4.1, r1.2 ++ r3.2 ++ r4.2.1, some e)
  | none =>
    let r5 := start_refresh_task newTask r4.1
    ({ r5.1 with running := true }, r1.2 ++ r3.2 ++ r4.2.1 ++ r5.2, none)

/-- The value returned by `do_command`. -/
inductive CmdOutcome where
  | statusMap (running : Bool) (port : Int) (sensors : List String)
      (refresh_interval : ℚ) (temp_dir : Option Nat)
  | message (m : String)
  | errorMsg (m : String)
deriving DecidableEq

/-- `do_command` (lines 140-163), applied to the key set of the command
mapping; `"status"` is tested first.  The second component records
whether an immediate full poll pass (`_update_all_sensor_readings`) was
awaited. -/
def do_command (s : Sys) (keys : List String) : CmdOutcome × Bool :=
  if keys.contains "status" then
    (.statusMap s.running s.port s.sensors s.refresh_interval s.temp_dir, false)
  else if keys.contains "refresh_now" then
    if s.running then (.message "Sensor readings refreshed", true)
    else (.errorMsg "SensorHost not running", false)
  else (.errorMsg "Unknown command", false)

/-- The protobuf attribute struct seen by `validate_config`: the
`sensors` key (with its string values) and the `port` key (a protobuf
double), each possibly absent. -/
structure AttrStruct where
  sensors : Option (List String)
  port : Option ℚ
deriving DecidableEq

/-- `validate_config` (lines 56-92): a pure classmethod touching no
resource; it raises on a missing or empty sensor list and on a missing
or out-of-range port, and otherwise returns the sensor names as the
required dependencies. -/
def validate_config (c : AttrStruct) : Except String (List String) :=
  match c.sensors with
  | none => .error "sensors attribute is required"
  | some names =>
    if names.length = 0 then .error "At least one sensor must be specified"
    else
      match c.port with
      | none => .error "port attribute is required"
      | some p =>
        if p ≤ 0 ∨ p > 65535 then .error "Port must be between 1 and 65535"
        else .ok names

/-- `_refresh_readings_loop` (lines 232-241): while `self.running`, sleep
for one refresh interval and then run one full poll pass.  The list
argument holds the successive reads of `self.running`; a cancellation
only truncates the trace, so every execution performs a prefix of the
events below. -/
def refresh_readings_loop (interval : ℚ) : List Bool → List Event
  | [] => []
  | b :: rest =>
    if b then .sleep interval :: .poll :: refresh_readings_loop interval rest
    else []


theorem shutdownHttpServer_server (s : Sys) : (shutdownHttpServer s).1.server = none := by
  unfold shutdownHttpServer
  cases h : s.server with
  | none => simpa using h
  | some p => rfl

theorem joinServerThread_eq (s : Sys) :
    joinServerThread s = s ∨ joinServerThread s = { s with server_thread := none } := by
  unfold joinServerThread
  cases h : s.server_thread with
  | none => exact Or.inl rfl
  | some b => cases b
              · exact Or.inl rfl
              · exact Or.inr rfl

/-- After `_stop_server`: no server object, `running` is false, the
refresh-task field is empty or holds a done task, and any remaining
temp-dir handle points at a directory that no longer exists. -/
theorem stop_server_fields (s : Sys) :
    (stop_server s).1.server = none
    ∧ (stop_server s).1.running = false
    ∧ ((stop_server s).1.refresh_task = none ∨
        ∃ t, (stop_server s).1.refresh_task = some ⟨t, true⟩)
    ∧ (stop_server s).1.server_thread ≠ some true
    ∧ (∀ d, (stop_server s).1.temp_dir = some d → d ∉ (stop_server s).1.dirs) := by
  obtain ⟨sen, po, ri, sv, st, rt, td, ru, ds, bp, lt⟩ := s
  rcases rt with _ | ⟨tid, _ | _⟩ <;>
  rcases sv with _ | p <;>
  rcases st with _ | (_ | _) <;>
  rcases td with _ | d <;>
  first
  | (by_cases hd : d ∈ ds <;>
     simp [stop_server, cancelRefreshTask, shutdownHttpServer, joinServerThread,
           removeTempDir, hd])
  | simp [stop_server, cancelRefreshTask, shutdownHttpServer, joinServerThread,
          removeTempDir]

/-- `_stop_server` on a fully live generation: every teardown step fires,
in source order. -/
theorem stop_server_live (s : Sys) (t1 : Nat) (p1 : Int) (d1 : Nat)
    (hrt : s.refresh_task = some ⟨t1, false⟩)
    (hsv : s.server = some p1)
    (hst : s.server_thread = some true)
    (htd : s.temp_dir = some d1)
    (hd1 : d1 ∈ s.dirs) :
    stop_server s =
      ({ s with refresh_task := none, server := none, server_thread := none,
                temp_dir := none, running := false,
                dirs := s.dirs.erase d1,
                boundPorts := s.boundPorts.erase p1,
                liveTasks := s.liveTasks.erase t1 },
       [.cancelTask t1, .stopHttp p1, .removeDir d1]) := by
  simp [stop_server, cancelRefreshTask, shutdownHttpServer, joinServerThread,
        removeTempDir, hrt, hsv, hst, htd, hd1]

/-- `reconfigure` with a successful bind, written out: teardown results,
then the new directory, server, thread and task, `running = True`, and
the combined event trace. -/
theorem reconfigure_state_true (cfg : Config) (nd nt : Nat) (s : Sys) :
    reconfigure cfg nd nt true s =
      ({ sensors := cfg.sensorNames.filter (fun n => cfg.deps.contains n),
         port := intOfNum cfg.port,
         refresh_interval := effInterval cfg,
         server := some (intOfNum cfg.port),
         server_thread := some true,
         refresh_task := some ⟨nt, false⟩,
         temp_dir := some nd,
         running := true,
         dirs := nd :: (stop_server s).1.dirs,
         boundPorts := intOfNum cfg.port :: (stop_server s).1.boundPorts,
         liveTasks := nt :: (stop_server s).1.liveTasks },
       (stop_server s).2 ++
         [.createDir nd, .bindPort (intOfNum cfg.port), .spawnTask nt],
       none) := by
  obtain ⟨hsv, -, hrt, -, htd⟩ := stop_server_fields s
  simp only [reconfigure]
  have hsetup : setup_temp_directory nd
      { (stop_server s).1 with
        port := intOfNum cfg.port,
        refresh_interval := effInterval cfg,
        sensors := cfg.sensorNames.filter (fun n => cfg.deps.contains n) } =
      ({ (stop_server s).1 with
         port := intOfNum cfg.port,
         refresh_interval := effInterval cfg,
         sensors := cfg.sensorNames.filter (fun n => cfg.deps.contains n),
         temp_dir := some nd,
         dirs := nd :: (stop_server s).1.dirs },
       [Event.createDir nd]) := by
    unfold setup_temp_directory
    cases htd2 : (stop_server s).1.temp_dir with
    | none => simp [htd2]
    | some d => simp [htd2, htd d htd2]
  rw [hsetup]
  have hstart : start_server true
      { (stop_server s).1 with
        port := intOfNum cfg.port,
        refresh_interval := effInterval cfg,
        sensors := cfg.sensorNames.filter (fun n => cfg.deps.contains n),
        temp_dir := some nd,
        dirs := nd :: (stop_server s).1.dirs } =
      ({ (stop_server s).1 with
         port := intOfNum cfg.port,
         refresh_interval := effInterval cfg,
         sensors := cfg.sensorNames.filter (fun n => cfg.deps.contains n),
         temp_dir := some nd,
         dirs := nd :: (stop_server s).1.dirs,
         server := some (intOfNum cfg.port),
         boundPorts := intOfNum cfg.port :: (stop_server s).1.boundPorts,
         server_thread := some true },
       [Event.bindPort (intOfNum cfg.port)], none) := by
    unfold start_server
    simp [hsv]
  rw [hstart]
  rcases hrt with hrt | ⟨t, hrt⟩ <;>
    simp [start_refresh_task, hrt]

/-- `reconfigure` with a failing bind, written out: the old generation is
torn down, the new temp directory is created and recorded, no server or
task is started, `running` stays false, and the exception propagates.
The freshly created directory `nd` is NOT removed. -/
theorem reconfigure_state_false (cfg : Config) (nd nt : Nat) (s : Sys) :
    reconfigure cfg nd nt false s =
      ({ (stop_server s).1 with
         sensors := cfg.sensorNames.filter (fun n => cfg.deps.contains n),
         port := intOfNum cfg.port,
         refresh_interval := effInterval cfg,
         temp_dir := some nd,
         dirs := nd :: (stop_server s).1.dirs },
       (stop_server s).2 ++ [.createDir nd],
       some "Failed to start HTTP server") := by
  obtain ⟨hsv, -, -, -, htd⟩ := stop_server_fields s
  simp only [reconfigure]
  have hsetup : setup_temp_directory nd
      { (stop_server s).1 with
        port := intOfNum cfg.port,
        refresh_interval := effInterval cfg,
        sensors := cfg.sensorNames.filter (fun n => cfg.deps.contains n) } =
      ({ (stop_server s).1 with
         port := intOfNum cfg.port,
         refresh_interval := effInterval cfg,
         sensors := cfg.sensorNames.filter (fun n => cfg.deps.contains n),
         temp_dir := some nd,
         dirs := nd :: (stop_server s).1.dirs },
       [Event.createDir nd]) := by
    unfold setup_temp_directory
    cases htd2 : (stop_server s).1.temp_dir with
    | none => simp [htd2]
    | some d => simp [htd2, htd d htd2]
  rw [hsetup]
  unfold start_server
  simp [hsv]

/-- On a state whose resources are already gone, every `_stop_server`
step is skipped: the state is unchanged and no event is emitted. -/
theorem stop_server_inert (s : Sys)
    (h1 : s.server = none)
    (h2 : s.running = false)
    (h3 : s.refresh_task = none ∨ ∃ t, s.refresh_task = some ⟨t, true⟩)
    (h4 : s.server_thread ≠ some true)
    (h5 : ∀ d, s.temp_dir = some d → d ∉ s.dirs) :
    stop_server s = (s, []) := by
  have hc : cancelRefreshTask s = (s, []) := by
    rcases h3 with h | ⟨t, h⟩ <;> simp [cancelRefreshTask, h]
  have hh : shutdownHttpServer s = (s, []) := by simp [shutdownHttpServer, h1]
  have hj : joinServerThread s = s := by
    unfold joinServerThread
    cases h : s.server_thread with
    | none => rfl
    | some b =>
      cases b with
      | false => rfl
      | true => exact absurd h h4
  have hr : removeTempDir s = (s, []) := by
    unfold removeTempDir
    cases h : s.temp_dir with
    | none => rfl
    | some d => simp [h5 d h]
  simp only [stop_server, hc, hh, hj, hr, List.append_nil]
  have he : ({ s with running := false } : Sys) = s := by
    rw [← h2]
  rw [he]

/-- C8: shutdown is idempotent.  `_stop_server` is total (no teardown
step can raise), and running it on the state a previous `_stop_server`
produced performs no teardown action at all (empty event trace) and
leaves the state unchanged: task cancellation, server stop and directory
removal are each skipped because their resource is already gone. -/
theorem stop_server_idempotent (s : Sys) :
    stop_server (stop_server s).1 = ((stop_server s).1, []) := by
  obtain ⟨hsv, hru, hrt, hst, htd⟩ := stop_server_fields s
  exact stop_server_inert _ hsv hru hrt hst htd

/-- C7: a second `reconfigure` on a fully live generation leaves exactly
one live generation.  The event trace shows the old task cancelled, the
old server stopped (port released) and the old root directory removed
strictly before the new directory, server and task are created; in the
final state the old directory, port (when different) and task are gone
and only the new ones are live. -/
theorem reconfigure_twice_single_generation (cfg : Config) (nd nt : Nat) (s : Sys)
    (t1 : Nat) (p1 : Int) (d1 : Nat)
    (hrt : s.refresh_task = some ⟨t1, false⟩)
    (hsv : s.server = some p1)
    (hst : s.server_thread = some true)
    (htd : s.temp_dir = some d1)
    (hd1 : d1 ∈ s.dirs)
    (hdup : s.dirs.Nodup) (hbp : s.boundPorts.Nodup) (hlt : s.liveTasks.Nodup)
    (hnd : nd ≠ d1) (hnt : nt ≠ t1) :
    (reconfigure cfg nd nt true s).2.1 =
      [.cancelTask t1, .stopHttp p1, .removeDir d1,
       .createDir nd, .bindPort (intOfNum cfg.port), .spawnTask nt]
    ∧ (reconfigure cfg nd nt true s).2.2 = none
    ∧ (reconfigure cfg nd nt true s).1.temp_dir = some nd
    ∧ nd ∈ (reconfigure cfg nd nt true s).1.dirs
    ∧ d1 ∉ (reconfigure cfg nd nt true s).1.dirs
    ∧ (reconfigure cfg nd nt true s).1.server = some (intOfNum cfg.port)
    ∧ (p1 ≠ intOfNum cfg.port → p1 ∉ (reconfigure cfg nd nt true s).1.boundPorts)
    ∧ (reconfigure cfg nd nt true s).1.refresh_task = some ⟨nt, false⟩
    ∧ nt ∈ (reconfigure cfg nd nt true s).1.liveTasks
    ∧ t1 ∉ (reconfigure cfg nd nt true s).1.liveTasks
    ∧ (reconfigure cfg nd nt true s).1.running = true := by
  have hstop := stop_server_live s t1 p1 d1 hrt hsv hst htd hd1
  have hrec : reconfigure cfg nd nt true s =
      ({ sensors := cfg.sensorNames.filter (fun n => cfg.deps.contains n),
         port := intOfNum cfg.port,
         refresh_interval := effInterval cfg,
         server := some (intOfNum cfg.port),
         server_thread := some true,
         refresh_task := some ⟨nt, false⟩,
         temp_dir := some nd,
         running := true,
         dirs := nd :: s.dirs.erase d1,
         boundPorts := intOfNum cfg.port :: s.boundPorts.erase p1,
         liveTasks := nt :: s.liveTasks.erase t1 },
       [.cancelTask t1, .stopHttp p1, .removeDir d1, .createDir nd,
        .bindPort (intOfNum cfg.port), .spawnTask nt],
       none) := by
    rw [reconfigure_state_true cfg nd nt s, hstop]
    rfl
  rw [hrec]
  refine ⟨rfl, rfl, rfl, List.mem_cons_self _ _, ?_, rfl, ?_, rfl,
          List.mem_cons_self _ _, ?_, rfl⟩
  · intro hmem
    rcases List.mem_cons.mp hmem with h | h
    · exact hnd h.symm
    · exact hdup.not_mem_erase h
  · intro hne hmem
    rcases List.mem_cons.mp hmem with h | h
    · exact hne h
    · exact hbp.not_mem_erase h
  · intro hmem
    rcases List.mem_cons.mp hmem with h | h
    · exact hnt h.symm
    · exact hlt.not_mem_erase h

/-- A fully live generation: sensor "a" on port 8080, directory 10,
task 1. -/
def liveSys : Sys :=
  { sensors := ["a"], port := 8080, refresh_interval := 5, server := some 8080,
    server_thread := some true, refresh_task := some ⟨1, false⟩,
    temp_dir := some 10, running := true, dirs := [10], boundPorts := [8080],
    liveTasks := [1] }

theorem reconfigure_twice_single_generation_witness :
    (reconfigure ⟨["b"], 9090, none, ["b"]⟩ 11 2 true liveSys).2.1 =
      [.cancelTask 1, .stopHttp 8080, .removeDir 10, .createDir 11,
       .bindPort (intOfNum 9090), .spawnTask 2] :=
  (reconfigure_twice_single_generation ⟨["b"], 9090, none, ["b"]⟩ 11 2 liveSys
    1 8080 10 rfl rfl rfl rfl (by decide) (by decide) (by decide) (by decide)
    (by decide) (by decide)).1

/-- C4 counterexample: configuring a fresh host with a failing bind
propagates the error but leaves the freshly created root directory on
disk (`temp_dir = some 1` and directory 1 still exists) — it is not
rolled back. -/
theorem reconfigure_failure_keeps_new_dir :
    (reconfigure ⟨["a"], 8080, none, ["a"]⟩ 1 1 false initSys).2.2 =
      some "Failed to start HTTP server"
    ∧ (reconfigure ⟨["a"], 8080, none, ["a"]⟩ 1 1 false initSys).1.temp_dir = some 1
    ∧ 1 ∈ (reconfigure ⟨["a"], 8080, none, ["a"]⟩ 1 1 false initSys).1.dirs := by
  decide

/-- C4 amended: when startup fails (the bind raises), `reconfigure`
reports the failure to the caller and leaves no server, no new poll
task, and `running = False` — but the freshly created root directory is
retained (removed only by a later `reconfigure` or `_stop_server`). -/
theorem reconfigure_failure_aborts_generation (cfg : Config) (nd nt : Nat) (s : Sys) :
    (reconfigure cfg nd nt false s).2.2 = some "Failed to start HTTP server"
    ∧ (reconfigure cfg nd nt false s).1.running = false
    ∧ (reconfigure cfg nd nt false s).1.server = none
    ∧ ((reconfigure cfg nd nt false s).1.refresh_task = none ∨
        ∃ t, (reconfigure cfg nd nt false s).1.refresh_task = some ⟨t, true⟩)
    ∧ (reconfigure cfg nd nt false s).1.temp_dir = some nd
    ∧ nd ∈ (reconfigure cfg nd nt false s).1.dirs := by
  obtain ⟨hsv, hru, hrt, -, -⟩ := stop_server_fields s
  rw [reconfigure_state_false cfg nd nt s]
  exact ⟨rfl, hru, hsv, hrt, rfl, List.mem_cons_self _ _⟩

/-- The state after a first, successful configure: sensor "a", port
8080, directory 10, task 20. -/
def sysAfterFirst : Sys :=
  (reconfigure ⟨["a"], 8080, none, ["a"]⟩ 10 20 true initSys).1

/-- The state after a second configure (sensor "b", port 9090,
directory 11, task 21) whose bind fails. -/
def sysAfterSecond : Sys :=
  (reconfigure ⟨["b"], 9090, none, ["b"]⟩ 11 21 false sysAfterFirst).1

/-- C5 counterexample: a successful Configure (port 8080, sensor "a")
followed by a failed Configure (port 9090, sensor "b", bind fails).
`status` then reports the port, sensors and directory of the failed attempt
with `running = false` — which is neither the description of the
Generation established by the last successful Configure nor the
zero/empty (fresh `__init__`) description. -/
theorem status_after_failed_reconfigure :
    (reconfigure ⟨["a"], 8080, none, ["a"]⟩ 10 20 true initSys).2.2 = none
    ∧ (do_command sysAfterFirst ["status"]).1 =
        .statusMap true 8080 ["a"] 5 (some 10)
    ∧ (reconfigure ⟨["b"], 9090, none, ["b"]⟩ 11 21 false sysAfterFirst).2.2 ≠ none
    ∧ (do_command sysAfterSecond ["status"]).1 =
        .statusMap false 9090 ["b"] 5 (some 11)
    ∧ CmdOutcome.statusMap false 9090 ["b"] (5 : ℚ) (some 11) ≠
        .statusMap true 8080 ["a"] 5 (some 10)
    ∧ CmdOutcome.statusMap false 9090 ["b"] (5 : ℚ) (some 11) ≠
        .statusMap initSys.running initSys.port initSys.sensors
          initSys.refresh_interval initSys.temp_dir := by
  decide

/-- C5 amended: `status` reports the in-memory fields written by the
most recent `reconfigure` attempt, successful or not: after a successful
one it describes that live Generation; after a failed one it describes
the failed attempt (its port, sensors, interval, directory) with
`running = false`, not the last successful Generation and not the empty
one. -/
theorem status_reflects_last_attempt (cfg : Config) (nd nt : Nat) (s : Sys) :
    (do_command (reconfigure cfg nd nt true s).1 ["status"]).1 =
      .statusMap true (intOfNum cfg.port)
        (cfg.sensorNames.filter (fun n => cfg.deps.contains n))
        (effInterval cfg) (some nd)
    ∧ (do_command (reconfigure cfg nd nt false s).1 ["status"]).1 =
      .statusMap false (intOfNum cfg.port)
        (cfg.sensorNames.filter (fun n => cfg.deps.contains n))
        (effInterval cfg) (some nd) := by
  constructor
  · rw [reconfigure_state_true cfg nd nt s]
    rfl
  · rw [reconfigure_state_false cfg nd nt s]
    have hru := (stop_server_fields s).2.1
    simp [do_command, hru]

/-- `_stop_server` never polls a sensor. -/
theorem stop_server_no_poll (s : Sys) : Event.poll ∉ (stop_server s).2 := by
  obtain ⟨sen, po, ri, sv, st, rt, td, ru, ds, bp, lt⟩ := s
  rcases rt with _ | ⟨tid, _ | _⟩ <;>
  rcases sv with _ | p <;>
  rcases st with _ | (_ | _) <;>
  rcases td with _ | d <;>
  first
  | (by_cases hd : d ∈ ds <;>
     simp [stop_server, cancelRefreshTask, shutdownHttpServer, joinServerThread,
           removeTempDir, hd])
  | simp [stop_server, cancelRefreshTask, shutdownHttpServer, joinServerThread,
          removeTempDir]

/-- C10: the refresh loop sleeps one full refresh interval before every
poll pass — in particular before its first — and `reconfigure` itself
performs no poll, so after a Configure no snapshot exists (HTTP readers
get 404) until an interval has elapsed or a manual refresh runs. -/
theorem refresh_loop_sleeps_before_poll :
    (∀ (interval : ℚ) (flags : List Bool) (i : Nat),
      (refresh_readings_loop interval flags).get? i = some .poll →
        ∃ j, j < i ∧
          (refresh_readings_loop interval flags).get? j = some (.sleep interval))
    ∧ (∀ (cfg : Config) (nd nt : Nat) (bindOk : Bool) (s : Sys),
        Event.poll ∉ (reconfigure cfg nd nt bindOk s).2.1) := by
  constructor
  · intro interval flags
    induction flags with
    | nil =>
      intro i h
      simp [refresh_readings_loop] at h
    | cons b rest ih =>
      intro i h
      cases b with
      | false => simp [refresh_readings_loop] at h
      | true =>
        rcases i with _ | (_ | n)
        · simp [refresh_readings_loop] at h
        · exact ⟨0, by omega, rfl⟩
        · have h2 : (refresh_readings_loop interval rest).get? n = some .poll := h
          obtain ⟨j, hj, hs⟩ := ih n h2
          exact ⟨j + 2, by omega, hs⟩
  · intro cfg nd nt bindOk s
    cases bindOk with
    | false =>
      rw [reconfigure_state_false cfg nd nt s]
      intro h
      rcases List.mem_append.mp h with h | h
      · exact stop_server_no_poll s h
      · simp at h
    | true =>
      rw [reconfigure_state_true cfg nd nt s]
      intro h
      rcases List.mem_append.mp h with h | h
      · exact stop_server_no_poll s h
      · simp at h

theorem refresh_loop_sleeps_before_poll_witness :
    ∃ j, j < 1 ∧ (refresh_readings_loop 5 [true]).get? j = some (.sleep 5) :=
  refresh_loop_sleeps_before_poll.1 5 [true] 1 rfl

/-- C9 counterexample: while running, a command mapping that contains
both "status" and "refresh_now" makes the handler return the status map
and perform no poll pass — not the refresh confirmation the claim
requires for every mapping containing "refresh_now". -/
theorem refresh_now_shadowed_by_status :
    ({ initSys with running := true } : Sys).running = true
    ∧ (do_command { initSys with running := true } ["status", "refresh_now"]).2
        = false
    ∧ (do_command { initSys with running := true } ["status", "refresh_now"]).1 ≠
        .message "Sensor readings refreshed" := by
  decide

/-- C9 amended: for every command mapping that contains "refresh_now"
and does not contain "status" (which is tested first and shadows it):
when not running the handler returns the "SensorHost not running" error
without raising and without polling; when running it performs exactly
one immediate full poll pass and returns the confirmation message. -/
theorem do_command_refresh_now (s : Sys) (keys : List String)
    (h1 : keys.contains "refresh_now" = true)
    (h2 : keys.contains "status" = false) :
    do_command s keys =
      (if s.running then (.message "Sensor readings refreshed", true)
       else (.errorMsg "SensorHost not running", false)) := by
  have h1m : "refresh_now" ∈ keys := by simpa using h1
  have h2m : "status" ∉ keys := by simpa using h2
  simp [do_command, h1m, h2m]

theorem do_command_refresh_now_witness :
    do_command initSys ["refresh_now"] =
      (if initSys.running then (.message "Sensor readings refreshed", true)
       else (.errorMsg "SensorHost not running", false)) :=
  do_command_refresh_now initSys ["refresh_now"] rfl rfl

/-- C6 counterexample: the port value 1/2 (a representable protobuf
double) lies outside [1,65535] yet passes validation, because the guard
only tests `port <= 0 or port > 65535`. -/
theorem validate_config_accepts_fractional_port :
    validate_config ⟨some ["a"], some (mkRat 1 2)⟩ = .ok ["a"]
    ∧ ¬((1 : ℚ) ≤ mkRat 1 2) :=
  ⟨rfl, by decide⟩

/-- C6 amended: `validate_config` is pure (it touches no resource) and
accepts a configuration only when the sensor list is present and
nonempty and the port is present with `0 < port ≤ 65535`; hence every
missing/empty sensor list and every port ≤ 0 or > 65535 (including 0
and 70000) is rejected, but a fractional port in (0,1) such as 0.5 is
accepted despite lying outside [1,65535]. -/
theorem validate_config_accepts_iff (c : AttrStruct) (names : List String)
    (h : validate_config c = .ok names) :
    c.sensors = some names ∧ names ≠ [] ∧
    ∃ p, c.port = some p ∧ 0 < p ∧ p ≤ 65535 := by
  obtain ⟨cs, cp⟩ := c
  cases cs with
  | none => simp [validate_config] at h
  | some names2 =>
    by_cases hlen : names2.length = 0
    · simp [validate_config, hlen] at h
    · cases cp with
      | none => simp [validate_config, hlen] at h
      | some p =>
        by_cases hp : p ≤ 0 ∨ p > 65535
        · simp [validate_config, hlen, hp] at h
        · have h2 : names2 = names := by
            simpa [validate_config, hlen, hp] using h
          push_neg at hp
          subst h2
          exact ⟨rfl, fun hnil => hlen (by simp [hnil]), p, rfl, hp.1, hp.2⟩

theorem validate_config_accepts_iff_witness :
    (⟨some ["a"], some 8080⟩ : AttrStruct).sensors = some ["a"] ∧ ["a"] ≠ [] ∧
    ∃ p, (⟨some ["a"], some 8080⟩ : AttrStruct).port = some p ∧
      0 < p ∧ p ≤ 65535 :=
  validate_config_accepts_iff ⟨some ["a"], some 8080⟩ ["a"] rfl
